import Mathlib

/-!
Shallow embedding of the SceneManager rendering code of the
CS330-Computer-Graphics-Visualization coursework repository
(Module 7 `7-1_FinalProjectMilestoneUpdated/Sources/SceneManager.cpp`, the
structurally identical Module 4 copy, and the Module 3
`3-2_Assignment_Complete/Source/SceneManager.cpp`).

Machine floats of the C++ code are modelled as exact rationals; the
real-valued trigonometry used by the glm library is abstracted into a
record of functions (`GlmTrig`), since every claim under study concerns
the structure of the computations and not floating-point rounding.
Calls into OpenGL and into the shader manager are modelled as an emitted
trace of backend commands (`Cmd`).
-/

namespace SceneMgr

/-- Component type of glm::vec2 values (UV scale). -/
structure Vec2 where
  x : ℚ
  y : ℚ
deriving DecidableEq, Repr

/-- Component type of glm::vec3 values (scales, positions, colors, axes). -/
structure Vec3 where
  x : ℚ
  y : ℚ
  z : ℚ
deriving DecidableEq, Repr

/-- Component type of glm::vec4 values (RGBA colors). -/
structure Vec4 where
  x : ℚ
  y : ℚ
  z : ℚ
  w : ℚ
deriving DecidableEq, Repr

/-- 4x4 matrices, written row-by-column (glm stores column-major; the
mathematical matrix is what the stored data denotes). -/
abbrev Mat4 : Type := Matrix (Fin 4) (Fin 4) ℚ

/-- The real-valued scalar functions used by glm, held abstract: degree to
radian conversion (glm::radians) and the trigonometric functions used by
glm::rotate.  Every theorem below is proved for an arbitrary such record. -/
structure GlmTrig where
  radians : ℚ → ℚ
  cos : ℚ → ℚ
  sin : ℚ → ℚ

/-- glm::scale(v): the homogeneous scaling matrix diag(v.x, v.y, v.z, 1). -/
def glmScale (v : Vec3) : Mat4 :=
  !![v.x, 0, 0, 0;
     0, v.y, 0, 0;
     0, 0, v.z, 0;
     0, 0, 0, 1]

/-- glm::translate(v): the homogeneous translation matrix, identity linear
part with v in the fourth column. -/
def glmTranslate (v : Vec3) : Mat4 :=
  !![1, 0, 0, v.x;
     0, 1, 0, v.y;
     0, 0, 1, v.z;
     0, 0, 0, 1]

/-- glm::rotate(angle, axis) for a (normalized) axis, following glm's
matrix_transform construction: with c = cos angle, s = sin angle and
temp = (1 - c) * axis, the column-major entries are
m[0][0] = c + temp.x * axis.x, m[0][1] = temp.x * axis.y + s * axis.z, ...;
below they appear transposed because `Mat4` is written row-by-column. -/
def glmRotate (t : GlmTrig) (angle : ℚ) (axis : Vec3) : Mat4 :=
  let c := t.cos angle
  let s := t.sin angle
  let tx := (1 - c) * axis.x
  let ty := (1 - c) * axis.y
  let tz := (1 - c) * axis.z
  !![c + tx * axis.x, ty * axis.x - s * axis.z, tz * axis.x + s * axis.y, 0;
     tx * axis.y + s * axis.z, c + ty * axis.y, tz * axis.y - s * axis.x, 0;
     tx * axis.z - s * axis.y, ty * axis.z + s * axis.x, c + tz * axis.z, 0;
     0, 0, 0, 1]

/-- One entry of the texture registry, mirroring the TEXTURE_INFO record
stored in m_textureIDs: the tag string and the OpenGL texture handle. -/
structure TextureEntry where
  tag : String
  ID : Int
deriving DecidableEq, Repr

/-- One entry of the material list m_objectMaterials (OBJECT_MATERIAL). -/
structure ObjectMaterial where
  ambientColor : Vec3
  ambientStrength : ℚ
  diffuseColor : Vec3
  specularColor : Vec3
  shininess : ℚ
  tag : String
deriving DecidableEq, Repr

/-- The size of the m_textureIDs array.  The class header is not part of
the sources at hand; the bound 16 is the one used by the constructor's
initialization loop and by the comments of BindGLTextures (up to 16
slots). -/
def TEXTURE_SLOT_CAPACITY : Nat := 16

/-- The SceneManager state touched by the registry operations:
whether a shader manager was supplied to the constructor
(m_pShaderManager != NULL), the texture registry array m_textureIDs with
its fill count m_loadedTextures, and the material list m_objectMaterials.
m_textureIDs is modelled as a total function on indices so that the
unguarded write of CreateGLTexture can be expressed even past the declared
array bound. -/
structure SceneState where
  hasShader : Bool
  textureIDs : Nat → TextureEntry
  loadedTextures : Nat
  objectMaterials : List ObjectMaterial

/-- The state produced by the SceneManager constructor: each of the 16
array cells is set to tag "/0" and ID -1, and m_loadedTextures to 0.
The material list starts empty (no code in the repository ever fills it). -/
def initialState (hasShader : Bool) : SceneState where
  hasShader := hasShader
  textureIDs := fun _ => { tag := "/0", ID := -1 }
  loadedTextures := 0
  objectMaterials := []

/-- OpenGL enumeration constants appearing in the calls under study. -/
def GL_TEXTURE_MAG_FILTER : Int := 0x2800
/-- OpenGL enumeration constant. -/
def GL_TEXTURE_MIN_FILTER : Int := 0x2801
/-- OpenGL enumeration constant. -/
def GL_TEXTURE_WRAP_S : Int := 0x2802
/-- OpenGL enumeration constant. -/
def GL_TEXTURE_WRAP_T : Int := 0x2803
/-- OpenGL enumeration constant. -/
def GL_CLAMP_TO_EDGE : Int := 0x812F
/-- OpenGL enumeration constant. -/
def GL_LINEAR : Int := 0x2601
/-- OpenGL enumeration constant. -/
def GL_RGB : Int := 0x1907
/-- OpenGL enumeration constant. -/
def GL_RGBA : Int := 0x1908
/-- OpenGL enumeration constant. -/
def GL_RGB8 : Int := 0x8051
/-- OpenGL enumeration constant. -/
def GL_RGBA8 : Int := 0x8058
/-- OpenGL enumeration constant. -/
def GL_TEXTURE0 : Int := 0x84C0

/-- The kinds of basic meshes the ShapeMeshes draw methods render. -/
inductive MeshKind where
  | plane
  | cylinder
  | box
  | cone
  | sphere
  | torus
  | extraTorus1
  | quarterTorus (thickness : ℚ)
deriving DecidableEq, Repr

/-- One backend command: a call into OpenGL (on the GL_TEXTURE_2D target
where one is fixed) or an upload of a shader uniform through the shader
manager, or a mesh draw. -/
inductive Cmd where
  | genTextures (n : Nat)
  | deleteTextures (n : Nat)
  | bindTexture (textureID : Int)
  | activeTexture (unit : Int)
  | texParameteri (pname value : Int)
  | texImage2D (internalformat : Int) (width height : Int) (format : Int)
  | generateMipmap
  | polygonOffset (factor units : ℚ)
  | setMat4Value (name : String) (value : Mat4)
  | setIntValue (name : String) (value : Bool)
  | setVec4Value (name : String) (value : Vec4)
  | setVec3Value (name : String) (value : Vec3)
  | setVec2Value (name : String) (value : Vec2)
  | setFloatValue (name : String) (value : ℚ)
  | setSampler2DValue (name : String) (slot : Int)
  | draw (mesh : MeshKind)
deriving DecidableEq

/-- The result of stbi_load, as seen through the out-parameters the code
reads: pixel dimensions and color channel count.  The pixel bytes play no
further role in the control flow and are not modelled. -/
structure Image where
  width : Int
  height : Int
  colorChannels : Int
deriving DecidableEq, Repr

/-- Result of SceneManager::CreateGLTexture: the boolean return value, the
updated member state, and the trace of backend calls it issued. -/
structure RegResult where
  ok : Bool
  state : SceneState
  trace : List Cmd

/-- SceneManager::CreateGLTexture.  `decoded` is the outcome of
stbi_load(filename, ...) for the given file (none when the image cannot be
parsed); `newTextureID` is the fresh handle glGenTextures returns.  On a
successful decode the texture is configured and uploaded; a channel count
other than 3 or 4 aborts with false before the registry write; otherwise
the entry is recorded at index m_loadedTextures - with no capacity check -
and m_loadedTextures is incremented. -/
def CreateGLTexture (filename : String) (tag : String) (decoded : Option Image)
    (newTextureID : Int) (s : SceneState) : RegResult :=
  let _ := filename
  match decoded with
  | none => { ok := false, state := s, trace := [] }
  | some image =>
    let pre : List Cmd :=
      [.genTextures 1,
       .bindTexture newTextureID,
       .texParameteri GL_TEXTURE_WRAP_S GL_CLAMP_TO_EDGE,
       .texParameteri GL_TEXTURE_WRAP_T GL_CLAMP_TO_EDGE,
       .texParameteri GL_TEXTURE_MIN_FILTER GL_LINEAR,
       .texParameteri GL_TEXTURE_MAG_FILTER GL_LINEAR]
    let registered : SceneState :=
      { s with
        textureIDs :=
          Function.update s.textureIDs s.loadedTextures
            { tag := tag, ID := newTextureID },
        loadedTextures := s.loadedTextures + 1 }
    if image.colorChannels = 3 then
      { ok := true, state := registered,
        trace := pre ++ [.texImage2D GL_RGB8 image.width image.height GL_RGB,
                         .generateMipmap, .bindTexture 0] }
    else if image.colorChannels = 4 then
      { ok := true, state := registered,
        trace := pre ++ [.texImage2D GL_RGBA8 image.width image.height GL_RGBA,
                         .generateMipmap, .bindTexture 0] }
    else
      { ok := false, state := s, trace := pre }

/-- The scanning loop shared textually by FindTextureID and
FindTextureSlot:
while ((index < m_loadedTextures) && (bFound == false)) - if the entry at
index bears the tag, stop there, else move to index + 1.  `remaining`
counts the iterations the guard still allows (m_loadedTextures - index),
so the returned value is the first matching index, as an Int, or -1 when
the guard index < m_loadedTextures fails first. -/
def scanTextures (entries : Nat → TextureEntry) (tag : String) :
    Nat → Nat → Option Nat
  | 0, _ => none
  | remaining + 1, index =>
    if (entries index).tag = tag then some index
    else scanTextures entries tag remaining (index + 1)

/-- SceneManager::FindTextureSlot: linear scan of the first
m_loadedTextures entries, returning the slot index of the first entry with
string-equal tag, or -1. -/
def FindTextureSlot (s : SceneState) (tag : String) : Int :=
  match scanTextures s.textureIDs tag s.loadedTextures 0 with
  | some index => (index : Int)
  | none => -1

/-- SceneManager::FindTextureID: the same scan, returning the stored
OpenGL handle of the first entry with string-equal tag, or -1. -/
def FindTextureID (s : SceneState) (tag : String) : Int :=
  match scanTextures s.textureIDs tag s.loadedTextures 0 with
  | some index => (s.textureIDs index).ID
  | none => -1

/-- The loop of SceneManager::FindMaterial: scan m_objectMaterials for the
first entry with the given tag; on a match copy its ambientColor,
ambientStrength, diffuseColor, specularColor and shininess fields (and
only those - not the tag) onto the out-parameter `material`; without a
match leave `material` untouched. -/
def findMaterialScan (tag : String) (material : ObjectMaterial) :
    List ObjectMaterial → ObjectMaterial
  | [] => material
  | m :: rest =>
    if m.tag = tag then
      { material with
        ambientColor := m.ambientColor,
        ambientStrength := m.ambientStrength,
        diffuseColor := m.diffuseColor,
        specularColor := m.specularColor,
        shininess := m.shininess }
    else findMaterialScan tag material rest

/-- SceneManager::FindMaterial: returns false when the material list is
empty; otherwise runs the scanning loop and then returns true -
unconditionally, whether or not any tag matched.  The result pairs the
boolean return value with the final value of the by-reference out
parameter `material`. -/
def FindMaterial (s : SceneState) (tag : String) (material : ObjectMaterial) :
    Bool × ObjectMaterial :=
  if s.objectMaterials.length = 0 then (false, material)
  else (true, findMaterialScan tag material s.objectMaterials)

/-- The loop body sequence of SceneManager::DestroyGLTextures over the
listed slot indices: for each index i it calls
glGenTextures(1, &m_textureIDs[i].ID), i.e. emits a genTextures command
and stores the fresh handle (freshIDs i) into the entry.  No deletion
call occurs anywhere in the method. -/
def destroyFrom (freshIDs : Nat → Int) :
    List Nat → SceneState → SceneState × List Cmd
  | [], s => (s, [])
  | i :: rest, s =>
    let s' : SceneState :=
      { s with
        textureIDs :=
          Function.update s.textureIDs i { s.textureIDs i with ID := freshIDs i } }
    let next := destroyFrom freshIDs rest s'
    (next.1, Cmd.genTextures 1 :: next.2)

/-- SceneManager::DestroyGLTextures: iterates i = 0, ..,
m_loadedTextures - 1 over the loop body above.  `freshIDs` supplies the
handles the successive glGenTextures calls hand back. -/
def DestroyGLTextures (freshIDs : Nat → Int) (s : SceneState) :
    SceneState × List Cmd :=
  destroyFrom freshIDs (List.range s.loadedTextures) s

/-- SceneManager::SetTransformations: builds scale, rotationX, rotationY,
rotationZ and translation matrices with glm (converting each angle from
degrees with glm::radians), combines them as
modelView = translation * rotationX * rotationY * rotationZ * scale,
and, when a shader manager is present, uploads the result to the "model"
uniform. -/
def SetTransformations (t : GlmTrig) (s : SceneState) (scaleXYZ : Vec3)
    (XrotationDegrees YrotationDegrees ZrotationDegrees : ℚ)
    (positionXYZ : Vec3) : List Cmd :=
  let scale := glmScale scaleXYZ
  let rotationX := glmRotate t (t.radians XrotationDegrees) { x := 1, y := 0, z := 0 }
  let rotationY := glmRotate t (t.radians YrotationDegrees) { x := 0, y := 1, z := 0 }
  let rotationZ := glmRotate t (t.radians ZrotationDegrees) { x := 0, y := 0, z := 1 }
  let translation := glmTranslate positionXYZ
  let modelView := translation * rotationX * rotationY * rotationZ * scale
  if s.hasShader then [.setMat4Value "model" modelView] else []

/-- SceneManager::SetShaderColor: when a shader manager is present,
disables texturing (bUseTexture := false) and uploads the RGBA color to
the "objectColor" uniform. -/
def SetShaderColor (s : SceneState)
    (redColorValue greenColorValue blueColorValue alphaValue : ℚ) : List Cmd :=
  let currentColor : Vec4 :=
    { x := redColorValue, y := greenColorValue, z := blueColorValue, w := alphaValue }
  if s.hasShader then
    [.setIntValue "bUseTexture" false, .setVec4Value "objectColor" currentColor]
  else []

/-- SceneManager::SetTextureUVScale: when a shader manager is present,
uploads the UV scale pair to the "UVscale" uniform. -/
def SetTextureUVScale (s : SceneState) (u v : ℚ) : List Cmd :=
  if s.hasShader then [.setVec2Value "UVscale" { x := u, y := v }] else []

/-- The OpenGL texturing state a frame mutates: the active texture unit
(glActiveTexture) and the texture bound to the GL_TEXTURE_2D target of
each unit (glBindTexture). -/
structure GLState where
  activeTexture : Int
  boundTexture2D : Int → Int

/-- SceneManager::SetShaderTexture: when a shader manager is present, sets
bUseTexture := true, then looks the tag up with FindTextureSlot; only when
a slot was found (textureSlot >= 0) does it activate texture unit
GL_TEXTURE0 + textureSlot, bind the registered handle there, and upload
the slot to the "objectTexture" sampler uniform.  Returns the updated GL
state together with the emitted trace. -/
def SetShaderTexture (s : SceneState) (g : GLState) (textureTag : String) :
    GLState × List Cmd :=
  if s.hasShader then
    let textureSlot := FindTextureSlot s textureTag
    if 0 ≤ textureSlot then
      let unit := GL_TEXTURE0 + textureSlot
      let handle := (s.textureIDs textureSlot.toNat).ID
      ({ activeTexture := unit,
         boundTexture2D := Function.update g.boundTexture2D unit handle },
       [.setIntValue "bUseTexture" true, .activeTexture unit,
        .bindTexture handle, .setSampler2DValue "objectTexture" textureSlot])
    else
      (g, [.setIntValue "bUseTexture" true])
  else (g, [])

/-- One statement of a RenderScene body.  RenderScene methods are
straight-line code: a fixed sequence of helper calls with literal constant
arguments (the five local transform variables are propagated into each
SetTransformations call site), raw glBindTexture(GL_TEXTURE_2D, 0)
unbinds, raw glPolygonOffset calls, and mesh draws. -/
inductive Step where
  | setTransformations (scaleXYZ : Vec3) (xDeg yDeg zDeg : ℚ) (positionXYZ : Vec3)
  | setShaderColor (r g b a : ℚ)
  | setShaderTexture (tag : String)
  | setTextureUVScale (u v : ℚ)
  | draw (mesh : MeshKind)
  | unbindTexture
  | polygonOffset (factor units : ℚ)

/-- Execution of one RenderScene statement: it reads the scene-manager
state (never writing it), may mutate the OpenGL texturing state, and
emits its backend commands. -/
def runStep (t : GlmTrig) (s : SceneState) (g : GLState) :
    Step → GLState × List Cmd
  | .setTransformations scaleXYZ xDeg yDeg zDeg positionXYZ =>
    (g, SetTransformations t s scaleXYZ xDeg yDeg zDeg positionXYZ)
  | .setShaderColor r gr b a => (g, SetShaderColor s r gr b a)
  | .setShaderTexture tag => SetShaderTexture s g tag
  | .setTextureUVScale u v => (g, SetTextureUVScale s u v)
  | .draw mesh => (g, [.draw mesh])
  | .unbindTexture =>
    ({ g with boundTexture2D := Function.update g.boundTexture2D g.activeTexture 0 },
     [.bindTexture 0])
  | .polygonOffset factor units => (g, [.polygonOffset factor units])

/-- Sequential execution of a RenderScene statement list, threading the
OpenGL texturing state and concatenating the emitted traces. -/
def runScript (t : GlmTrig) (s : SceneState) (g : GLState) :
    List Step → GLState × List Cmd
  | [] => (g, [])
  | step :: rest =>
    let first := runStep t s g step
    let next := runScript t s first.1 rest
    (next.1, first.2 ++ next.2)

/-- Statements 0-23 of the Module 7 RenderScene sequence. -/
def script7part0 : List Step := [
    .setTransformations ⟨20.0, 1.0, 10.0⟩ 0.0 0.0 0.0 ⟨0.0, 0.0, 0.0⟩,
    .setShaderColor 1 1 1 1,
    .draw .plane,
    .setTransformations ⟨20.0, 1.0, 10.0⟩ 90.0 0.0 0.0 ⟨0.0, 10.0, (-10.0)⟩,
    .setShaderColor 1 1 1 1,
    .draw .plane,
    .setTransformations ⟨2.0, 0.25, 2.0⟩ 0.0 0.0 0.0 ⟨10.0, 0.0, (-1.5)⟩,
    .setShaderTexture "oakWood",
    .draw .cylinder,
    .unbindTexture,
    .setTransformations ⟨0.2, 5.2, 0.2⟩ 0.0 0.0 0.0 ⟨10.0, 0.1, (-1.5)⟩,
    .setShaderTexture "oakWood",
    .draw .cylinder,
    .unbindTexture,
    .setTransformations ⟨2.0, 2.0, 2.0⟩ 90.0 0.0 0.0 ⟨10.0, 0.6, (-1.5)⟩,
    .setShaderTexture "ltbluePlastic",
    .draw .torus,
    .unbindTexture,
    .setTransformations ⟨1.75, 1.75, 1.75⟩ 90.0 0.0 0.0 ⟨10.0, 1.7, (-1.5)⟩,
    .setShaderTexture "bluePlastic",
    .draw .torus,
    .unbindTexture,
    .setTransformations ⟨1.5, 1.5, 1.5⟩ 90.0 0.0 0.0 ⟨10.0, 2.65, (-1.5)⟩,
    .setShaderTexture "magentaPlastic"
  ]

/-- Statements 24-47 of the Module 7 RenderScene sequence. -/
def script7part1 : List Step := [
    .draw .torus,
    .unbindTexture,
    .setTransformations ⟨1.25, 1.25, 1.25⟩ 90.0 0.0 0.0 ⟨10.0, 3.4, (-1.5)⟩,
    .setShaderTexture "redPlastic",
    .draw .torus,
    .unbindTexture,
    .setTransformations ⟨1.0, 1.0, 1.0⟩ 90.0 0.0 0.0 ⟨10.0, 4.05, (-1.5)⟩,
    .setShaderTexture "orangePlastic",
    .draw .torus,
    .setTransformations ⟨0.75, 0.75, 0.75⟩ 90.0 0.0 0.0 ⟨10.0, 4.6, (-1.5)⟩,
    .setShaderTexture "greenPlastic",
    .draw .extraTorus1,
    .setTransformations ⟨1.0, 0.75, 10.0⟩ 0.0 90.0 0.0 ⟨0.0, 0.35, (-3.5)⟩,
    .setShaderTexture "oakWood",
    .draw .box,
    .unbindTexture,
    .setTransformations ⟨0.05, 5.0, 0.05⟩ 0.0 0.0 0.0 ⟨4.25, 0.75, (-3.5)⟩,
    .setTextureUVScale 0.1 0.1,
    .setShaderTexture "steelTexture",
    .draw .cylinder,
    .unbindTexture,
    .setTransformations ⟨0.05, 5.0, 0.05⟩ 0.0 0.0 0.0 ⟨(-4.25), 0.75, (-3.5)⟩,
    .setTextureUVScale 0.1 0.1,
    .setShaderTexture "steelTexture"
  ]

/-- Statements 48-71 of the Module 7 RenderScene sequence. -/
def script7part2 : List Step := [
    .draw .cylinder,
    .unbindTexture,
    .setTransformations ⟨0.05, 8.1, 0.05⟩ 0.0 0.0 90.0 ⟨4.05, 5.95, (-3.5)⟩,
    .setTextureUVScale 0.1 0.1,
    .setShaderTexture "steelTexture",
    .draw .cylinder,
    .unbindTexture,
    .setTransformations ⟨0.2, 0.2, 0.175⟩ 0.0 0.0 0.0 ⟨4.05, 5.75, (-3.5)⟩,
    .setTextureUVScale 0.1 0.1,
    .setShaderTexture "steelTexture",
    .draw (.quarterTorus 0.2),
    .unbindTexture,
    .setTransformations ⟨0.2, 0.2, 0.175⟩ 0.0 0.0 90.0 ⟨(-4.05), 5.75, (-3.5)⟩,
    .setTextureUVScale 0.1 0.1,
    .setShaderTexture "steelTexture",
    .draw (.quarterTorus 0.2),
    .unbindTexture,
    .setTransformations ⟨0.05, 3.0, 0.05⟩ 0.0 0.0 0.0 ⟨2.5, 0.75, (-3.5)⟩,
    .setTextureUVScale 0.1 0.1,
    .setShaderTexture "steelTexture",
    .draw .cylinder,
    .setTransformations ⟨0.05, 3.0, 0.05⟩ 0.0 0.0 0.0 ⟨(-2.5), 0.75, (-3.5)⟩,
    .setTextureUVScale 0.1 0.1,
    .setShaderTexture "steelTexture"
  ]

/-- Statements 72-95 of the Module 7 RenderScene sequence. -/
def script7part3 : List Step := [
    .draw .cylinder,
    .setTransformations ⟨0.05, 4.75, 0.05⟩ 0.0 0.0 90.0 ⟨2.375, 3.95, (-3.5)⟩,
    .setTextureUVScale 0.1 0.1,
    .setShaderTexture "steelTexture",
    .draw .cylinder,
    .setTransformations ⟨0.2, 0.2, 0.175⟩ 0.0 0.0 0.0 ⟨2.3, 3.75, (-3.5)⟩,
    .setTextureUVScale 0.1 0.1,
    .setShaderTexture "steelTexture",
    .draw (.quarterTorus 0.2),
    .unbindTexture,
    .setTransformations ⟨0.2, 0.2, 0.175⟩ 0.0 0.0 90.0 ⟨(-2.3), 3.75, (-3.5)⟩,
    .setTextureUVScale 0.1 0.1,
    .setShaderTexture "steelTexture",
    .draw (.quarterTorus 0.2),
    .unbindTexture,
    .setTransformations ⟨0.75, 0.75, 0.75⟩ 0.0 0.0 0.0 ⟨4.25, 1.5, (-3.5)⟩,
    .setTextureUVScale 0.5 0.5,
    .setShaderTexture "bluePlastic",
    .draw .sphere,
    .unbindTexture,
    .setTransformations ⟨0.75, 0.75, 0.75⟩ 0.0 0.0 0.0 ⟨4.25, 3.0, (-3.5)⟩,
    .setTextureUVScale 0.5 0.5,
    .setShaderTexture "ltbluePlastic",
    .draw .sphere
  ]

/-- Statements 96-119 of the Module 7 RenderScene sequence. -/
def script7part4 : List Step := [
    .unbindTexture,
    .setTransformations ⟨0.75, 0.75, 0.75⟩ 0.0 0.0 0.0 ⟨4.25, 4.5, (-3.5)⟩,
    .setTextureUVScale 0.5 0.5,
    .setShaderTexture "greenPlastic",
    .draw .sphere,
    .unbindTexture,
    .setTransformations ⟨0.75, 0.75, 0.75⟩ 0.0 0.0 0.0 ⟨(-4.25), 1.5, (-3.5)⟩,
    .setTextureUVScale 0.5 0.5,
    .setShaderTexture "redPlastic",
    .draw .sphere,
    .unbindTexture,
    .setTransformations ⟨0.75, 0.75, 0.75⟩ 0.0 0.0 0.0 ⟨(-4.25), 3.0, (-3.5)⟩,
    .setTextureUVScale 0.5 0.5,
    .setShaderTexture "orangePlastic",
    .draw .sphere,
    .unbindTexture,
    .setTransformations ⟨0.75, 0.75, 0.75⟩ 0.0 0.0 0.0 ⟨2.375, 1.5, (-3.5)⟩,
    .setTextureUVScale 0.5 0.5,
    .setShaderTexture "magentaPlastic",
    .draw .sphere,
    .unbindTexture,
    .setTransformations ⟨0.75, 0.75, 0.75⟩ 0.0 0.0 0.0 ⟨2.375, 3.0, (-3.5)⟩,
    .setTextureUVScale 0.5 0.5,
    .setShaderTexture "redPlastic"
  ]

/-- Statements 120-143 of the Module 7 RenderScene sequence. -/
def script7part5 : List Step := [
    .draw .sphere,
    .unbindTexture,
    .setTransformations ⟨0.75, 0.75, 0.75⟩ 0.0 0.0 0.0 ⟨0.75, 3.95, (-3.5)⟩,
    .setTextureUVScale 0.5 0.5,
    .setShaderTexture "orangePlastic",
    .draw .sphere,
    .unbindTexture,
    .setTransformations ⟨0.75, 0.75, 0.75⟩ 0.0 0.0 0.0 ⟨(-0.75), 3.95, (-3.5)⟩,
    .setTextureUVScale 0.5 0.5,
    .setShaderTexture "greenPlastic",
    .draw .sphere,
    .unbindTexture,
    .setTransformations ⟨0.75, 0.75, 0.75⟩ 0.0 0.0 0.0 ⟨(-2.375), 1.5, (-3.5)⟩,
    .setTextureUVScale 0.5 0.5,
    .setShaderTexture "ltbluePlastic",
    .draw .sphere,
    .unbindTexture,
    .setTransformations ⟨2.0, 2.0, 2.0⟩ 0.0 15.0 0.0 ⟨(-0.75), 1.0, 0.75⟩,
    .setTextureUVScale 1.0 1.0,
    .setShaderTexture "ashWood",
    .draw .box,
    .setTransformations ⟨2.01, 2.01, 2.01⟩ 0.0 15.0 0.0 ⟨(-0.7501), 1.01, 0.7501⟩,
    .setTextureUVScale 1.0 1.0,
    .setShaderTexture "letterA"
  ]

/-- Statements 144-165 of the Module 7 RenderScene sequence. -/
def script7part6 : List Step := [
    .draw .box,
    .polygonOffset (-1.0) (-1.0),
    .unbindTexture,
    .setTransformations ⟨2.0, 2.0, 2.0⟩ 0.0 45.0 0.0 ⟨2.0, 1.0, 0.0⟩,
    .setTextureUVScale 1.0 1.0,
    .setShaderTexture "ashWood",
    .draw .box,
    .setTransformations ⟨2.01, 2.01, 2.01⟩ 0.0 45.0 0.0 ⟨2.01, 1.01, 0.01⟩,
    .setTextureUVScale 1.0 1.0,
    .setShaderTexture "letterB",
    .draw .box,
    .polygonOffset (-1.0) (-1.0),
    .unbindTexture,
    .setTransformations ⟨2.0, 2.0, 2.0⟩ 0.0 25.0 0.0 ⟨0.75, 3.0, 0.75⟩,
    .setTextureUVScale 1.0 1.0,
    .setShaderTexture "ashWood",
    .draw .box,
    .setTransformations ⟨2.01, 2.01, 2.01⟩ 0.0 25.0 0.0 ⟨0.7501, 3.01, 0.7501⟩,
    .setShaderTexture "letterC",
    .draw .box,
    .polygonOffset (-1.0) (-1.0),
    .unbindTexture
  ]

/-- The statement sequence of SceneManager::RenderScene of the Module 7
file (lines 497-1968): the 37 draw blocks in source order, with the
constant transform-variable assignments of each block propagated into
its SetTransformations call.  (Split into chunks for elaboration
performance only; the concatenation is the literal statement order.) -/
def script7 : List Step :=
  script7part0 ++ script7part1 ++ script7part2 ++ script7part3 ++ script7part4 ++ script7part5 ++ script7part6

/-- The statement sequence of SceneManager::RenderScene of the Module 3
file (lines 157-438): floor and background planes, three cylinders, a
box, a cone and a sphere, each with literal transform and color. -/
def script3 : List Step := [
    .setTransformations ⟨20.0, 1.0, 10.0⟩ 0.0 0.0 0.0 ⟨0.0, 0.0, 0.0⟩,
    .setShaderColor 0.66667 0.77255 1.0 1.0,
    .draw .plane,
    .setTransformations ⟨20.0, 1.0, 10.0⟩ 90.0 0.0 0.0 ⟨0.0, 9.0, (-10.0)⟩,
    .setShaderColor 0.66667 0.77255 1.0 1.0,
    .draw .plane,
    .setTransformations ⟨2.0, 3.0, 2.0⟩ 0.0 90.0 0.0 ⟨4.0, 0.0, 0.0⟩,
    .setShaderColor 0.49020 0.67843 1.0 1.0,
    .draw .cylinder,
    .setTransformations ⟨2.0, 4.5, 2.0⟩ 0.0 90.0 0.0 ⟨0.0, 0.0, 0.0⟩,
    .setShaderColor 0.49020 0.67843 1.0 1.0,
    .draw .cylinder,
    .setTransformations ⟨2.0, 1.5, 2.0⟩ 0.0 90.0 0.0 ⟨(-4.0), 0.0, 0.0⟩,
    .setShaderColor 0.49020 0.67843 1.0 1.0,
    .draw .cylinder,
    .setTransformations ⟨2.0, 2.0, 2.0⟩ 0.0 45.0 0.0 ⟨4.0, 4.0, 0.0⟩,
    .setShaderColor 0.83137 0.32549 0.32549 1.0,
    .draw .box,
    .setTransformations ⟨1.25, 3.5, 1.25⟩ 0.0 0.0 0.0 ⟨0.0, 4.5, 0.0⟩,
    .setShaderColor 1.0 1.0 0.2 1.0,
    .draw .cone,
    .setTransformations ⟨1.5, 1.5, 1.5⟩ 0.0 0.0 0.0 ⟨(-4.0), 3.0, 0.0⟩,
    .setShaderColor 0.8 0.3 0.9 1.0,
    .draw .sphere
  ]

/-- SceneManager::RenderScene of the Module 7 file, as the execution of
its statement sequence from a given OpenGL texturing state. -/
def RenderScene7 (t : GlmTrig) (s : SceneState) (g : GLState) :
    GLState × List Cmd :=
  runScript t s g script7

/-- SceneManager::RenderScene of the Module 3 file. -/
def RenderScene3 (t : GlmTrig) (s : SceneState) (g : GLState) :
    GLState × List Cmd :=
  runScript t s g script3

/-- One CreateGLTexture invocation as seen by the registry: the decoded
image for the file, the fresh handle glGenTextures yields, and the tag. -/
structure RegInput where
  img : Image
  newID : Int
  tag : String
deriving DecidableEq, Repr

/-- A sequence of CreateGLTexture calls (as LoadSceneTextures performs),
folding the state left to right; traces and return values are dropped. -/
def registerAll (s : SceneState) : List RegInput → SceneState
  | [] => s
  | r :: rest =>
    registerAll (CreateGLTexture "" r.tag (some r.img) r.newID s).state rest

/-- The rotation matrix about the X axis as the specification words it:
RotateX(angle) for an angle already in radians. -/
def specRotateX (t : GlmTrig) (angle : ℚ) : Mat4 :=
  !![1, 0, 0, 0;
     0, t.cos angle, -(t.sin angle), 0;
     0, t.sin angle, t.cos angle, 0;
     0, 0, 0, 1]

/-- The rotation matrix about the Y axis as the specification words it. -/
def specRotateY (t : GlmTrig) (angle : ℚ) : Mat4 :=
  !![t.cos angle, 0, t.sin angle, 0;
     0, 1, 0, 0;
     -(t.sin angle), 0, t.cos angle, 0;
     0, 0, 0, 1]

/-- The rotation matrix about the Z axis as the specification words it. -/
def specRotateZ (t : GlmTrig) (angle : ℚ) : Mat4 :=
  !![t.cos angle, -(t.sin angle), 0, 0;
     t.sin angle, t.cos angle, 0, 0;
     0, 0, 1, 0;
     0, 0, 0, 1]

/-- The model matrix exactly as the specification words it:
Translate(position) * RotateX(radians(xDeg)) * RotateY(radians(yDeg)) *
RotateZ(radians(zDeg)) * Scale(scale), degrees converted to radians
before use. -/
def specModelMatrix (t : GlmTrig) (scaleV : Vec3) (xDeg yDeg zDeg : ℚ)
    (position : Vec3) : Mat4 :=
  glmTranslate position *
    specRotateX t (t.radians xDeg) *
    specRotateY t (t.radians yDeg) *
    specRotateZ t (t.radians zDeg) *
    glmScale scaleV

/-- A concrete registry state with two loaded textures, used to witness
the lookup theorems: slot 0 holds tag "A" with handle 7, slot 1 holds tag
"B" with handle 42. -/
def witnessStateAB : SceneState where
  hasShader := true
  textureIDs := fun i =>
    if i = 0 then { tag := "A", ID := 7 }
    else if i = 1 then { tag := "B", ID := 42 }
    else { tag := "/0", ID := -1 }
  loadedTextures := 2
  objectMaterials := []

/-- A 64 x 64 three-channel (RGB) decode result. -/
def rgbImage : Image := { width := 64, height := 64, colorChannels := 3 }

/-- A 64 x 64 two-channel decode result (gray + alpha), a channel count
CreateGLTexture does not handle. -/
def grayAlphaImage : Image := { width := 64, height := 64, colorChannels := 2 }

/-- Sixteen registration inputs with pairwise distinct tags tex0 .. tex15,
each decoding as an RGB image: enough successful registrations to fill
every slot of the 16-entry array. -/
def sixteenInputs : List RegInput :=
  (List.range 16).map fun i =>
    { img := rgbImage, newID := (i : Int) + 100, tag := "tex" ++ toString i }

/-- The registry state after the sixteen registrations above: every array
slot of the declared capacity is occupied. -/
def fullState : SceneState :=
  registerAll (initialState true) sixteenInputs

/-- A one-entry material list whose entry is tagged "wood". -/
def woodOnlyMaterials : List ObjectMaterial :=
  [{ ambientColor := { x := 0.2, y := 0.1, z := 0.05 },
     ambientStrength := 0.3,
     diffuseColor := { x := 0.5, y := 0.35, z := 0.2 },
     specularColor := { x := 0.1, y := 0.1, z := 0.1 },
     shininess := 8,
     tag := "wood" }]

/-- A scene state whose material list is the one-entry "wood" list. -/
def woodOnlyState : SceneState :=
  { initialState true with objectMaterials := woodOnlyMaterials }

/-- A neutral material value standing for the caller's uninitialized
OBJECT_MATERIAL out-parameter in SetShaderMaterial. -/
def callerMaterial : ObjectMaterial where
  ambientColor := { x := 9, y := 9, z := 9 }
  ambientStrength := 9
  diffuseColor := { x := 9, y := 9, z := 9 }
  specularColor := { x := 9, y := 9, z := 9 }
  shininess := 9
  tag := "caller"

/-- The identity-shaped trig record: a concrete GlmTrig instantiation for
witnesses (the theorems hold for every record, so any one will do). -/
def idTrig : GlmTrig where
  radians := fun d => d
  cos := fun a => a
  sin := fun a => a

/-- A concrete OpenGL texturing state for witnesses: unit 0 active,
nothing bound anywhere. -/
def witnessGLState : GLState where
  activeTexture := GL_TEXTURE0
  boundTexture2D := fun _ => 0

/-- The scanning loop misses: when no index in the window it may visit
bears the tag, it runs the guard down and yields none. -/
lemma scanTextures_eq_none (entries : Nat → TextureEntry) (tag : String) :
    ∀ remaining index,
      (∀ j, index ≤ j → j < index + remaining → (entries j).tag ≠ tag) →
      scanTextures entries tag remaining index = none := by
  intro remaining
  induction remaining with
  | zero => intro index _; rfl
  | succ r ih =>
    intro index h
    have hne : (entries index).tag ≠ tag :=
      h index le_rfl (by omega)
    simp only [scanTextures, hne, if_false, if_neg hne]
    exact ih (index + 1) fun j hj1 hj2 => h j (by omega) (by omega)

/-- The scanning loop hits: the first matching index inside the window is
the one returned. -/
lemma scanTextures_eq_some (entries : Nat → TextureEntry) (tag : String) :
    ∀ remaining index i,
      index ≤ i → i < index + remaining → (entries i).tag = tag →
      (∀ j, index ≤ j → j < i → (entries j).tag ≠ tag) →
      scanTextures entries tag remaining index = some i := by
  intro remaining
  induction remaining with
  | zero => intro index i h1 h2; omega
  | succ r ih =>
    intro index i h1 h2 hi hfirst
    rcases Nat.eq_or_lt_of_le h1 with heq | hlt
    · subst heq
      simp [scanTextures, hi]
    · have hne : (entries index).tag ≠ tag :=
        hfirst index le_rfl hlt
      simp only [scanTextures, if_neg hne]
      exact ih (index + 1) i (by omega) (by omega) hi
        fun j hj1 hj2 => hfirst j (by omega) hj2

/-- C9: for every registry state and tag, the texture lookups scan the
first m_loadedTextures entries linearly from index 0; when no entry
matches exactly, both FindTextureSlot and FindTextureID return -1, and at
the first entry whose tag is string-equal to the query, FindTextureSlot
returns its slot index and FindTextureID its stored handle. -/
theorem find_texture_linear_scan (s : SceneState) (tag : String) :
    ((∀ i, i < s.loadedTextures → (s.textureIDs i).tag ≠ tag) →
      FindTextureSlot s tag = -1 ∧ FindTextureID s tag = -1)
    ∧ (∀ i, i < s.loadedTextures → (s.textureIDs i).tag = tag →
        (∀ j, j < i → (s.textureIDs j).tag ≠ tag) →
        FindTextureSlot s tag = (i : Int) ∧
        FindTextureID s tag = (s.textureIDs i).ID) := by
  constructor
  · intro hmiss
    have h := scanTextures_eq_none s.textureIDs tag s.loadedTextures 0
      fun j _ hj2 => hmiss j (by omega)
    constructor <;> simp [FindTextureSlot, FindTextureID, h]
  · intro i hi hit hfirst
    have h := scanTextures_eq_some s.textureIDs tag s.loadedTextures 0 i
      (Nat.zero_le i) (by omega) hit (fun j _ hj2 => hfirst j hj2)
    constructor <;> simp [FindTextureSlot, FindTextureID, h]

/-- Witness for C9 at a concrete registry: two loaded entries tagged "A"
and "B"; looking up "B" returns slot 1 and handle 42, and looking up a
tag present nowhere returns -1 from both lookups. -/
theorem find_texture_linear_scan_witness :
    FindTextureSlot witnessStateAB "B" = 1 ∧
    FindTextureID witnessStateAB "B" = 42 ∧
    FindTextureSlot witnessStateAB "C" = -1 := by
  refine ⟨?_, ?_, ?_⟩
  · exact ((find_texture_linear_scan witnessStateAB "B").2 1 (by decide)
      (by decide) (by decide)).1
  · exact ((find_texture_linear_scan witnessStateAB "B").2 1 (by decide)
      (by decide) (by decide)).2
  · exact ((find_texture_linear_scan witnessStateAB "C").1 (by decide)).1

/-- CreateGLTexture on a successful decode with 3 or 4 channels: returns
true and records the tag and handle at index m_loadedTextures, which is
incremented. -/
lemma createGLTexture_success (filename tag : String) (img : Image)
    (newID : Int) (s : SceneState)
    (h : img.colorChannels = 3 ∨ img.colorChannels = 4) :
    (CreateGLTexture filename tag (some img) newID s).ok = true ∧
    (CreateGLTexture filename tag (some img) newID s).state =
      { s with
        textureIDs :=
          Function.update s.textureIDs s.loadedTextures
            { tag := tag, ID := newID },
        loadedTextures := s.loadedTextures + 1 } := by
  rcases h with h3 | h4
  · constructor <;> simp [CreateGLTexture, h3]
  · constructor <;> simp [CreateGLTexture, h4]

/-- CreateGLTexture on a failed decode or an unhandled channel count:
returns false and leaves the member state untouched. -/
lemma createGLTexture_failure (filename tag : String)
    (decoded : Option Image) (newID : Int) (s : SceneState)
    (h : decoded = none ∨
      ∃ img, decoded = some img ∧
        img.colorChannels ≠ 3 ∧ img.colorChannels ≠ 4) :
    (CreateGLTexture filename tag decoded newID s).ok = false ∧
    (CreateGLTexture filename tag decoded newID s).state = s := by
  rcases h with h | ⟨img, rfl, h3, h4⟩
  · subst h; constructor <;> rfl
  · constructor <;> simp [CreateGLTexture, h3, h4]

/-- A registration sequence never rewrites registry entries below the
fill count it started from, and the fill count never shrinks. -/
lemma registerAll_preserves_below :
    ∀ (l : List RegInput) (s : SceneState) (j : Nat),
      j < s.loadedTextures →
      (registerAll s l).textureIDs j = s.textureIDs j ∧
      j < (registerAll s l).loadedTextures := by
  intro l
  induction l with
  | nil => intro s j hj; exact ⟨rfl, hj⟩
  | cons r rest ih =>
    intro s j hj
    by_cases h : r.img.colorChannels = 3 ∨ r.img.colorChannels = 4
    · have hs := (createGLTexture_success "" r.tag r.img r.newID s h).2
      have step := ih (CreateGLTexture "" r.tag (some r.img) r.newID s).state j
        (by rw [hs]; exact Nat.lt_succ_of_lt hj)
      refine ⟨?_, step.2⟩
      rw [registerAll, step.1, hs]
      exact Function.update_noteq (by omega) _ s.textureIDs
    · have hs := (createGLTexture_failure "" r.tag (some r.img) r.newID s
        (Or.inr ⟨r.img, rfl, by tauto, by tauto⟩)).2
      have step := ih (CreateGLTexture "" r.tag (some r.img) r.newID s).state j
        (by rw [hs]; exact hj)
      refine ⟨?_, step.2⟩
      rw [registerAll, step.1, hs]

/-- After a sequence of successful registrations the fill count has grown
by the sequence length. -/
lemma registerAll_count :
    ∀ (l : List RegInput) (s : SceneState),
      (∀ r ∈ l, r.img.colorChannels = 3 ∨ r.img.colorChannels = 4) →
      (registerAll s l).loadedTextures = s.loadedTextures + l.length := by
  intro l
  induction l with
  | nil => intro s _; rfl
  | cons r rest ih =>
    intro s hch
    have hs := (createGLTexture_success "" r.tag r.img r.newID s
      (hch r (List.mem_cons_self r rest))).2
    rw [registerAll, ih _ fun q hq => hch q (List.mem_cons_of_mem r hq), hs]
    simp [Nat.add_assoc, Nat.add_comm 1 rest.length]

/-- After a sequence of successful registrations, the entry written by the
i-th registration sits at slot (initial fill count + i) and holds that
registration's tag and handle. -/
lemma registerAll_entry :
    ∀ (l : List RegInput) (s : SceneState),
      (∀ r ∈ l, r.img.colorChannels = 3 ∨ r.img.colorChannels = 4) →
      ∀ i, (hi : i < l.length) →
        (registerAll s l).textureIDs (s.loadedTextures + i) =
          { tag := (l.get ⟨i, hi⟩).tag, ID := (l.get ⟨i, hi⟩).newID } := by
  intro l
  induction l with
  | nil => intro s _ i hi; exact absurd hi (Nat.not_lt_zero i)
  | cons r rest ih =>
    intro s hch i hi
    have hs := (createGLTexture_success "" r.tag r.img r.newID s
      (hch r (List.mem_cons_self r rest))).2
    match i with
    | 0 =>
      rw [registerAll]
      have pres := (registerAll_preserves_below rest
        (CreateGLTexture "" r.tag (some r.img) r.newID s).state s.loadedTextures
        (by rw [hs]; exact Nat.lt_succ_self _)).1
      rw [Nat.add_zero, pres, hs]
      simp
    | i + 1 =>
      rw [registerAll]
      have h2 := ih (CreateGLTexture "" r.tag (some r.img) r.newID s).state
        (fun q hq => hch q (List.mem_cons_of_mem r hq)) i
        (Nat.lt_of_succ_lt_succ hi)
      have hidx :
          (CreateGLTexture "" r.tag (some r.img) r.newID s).state.loadedTextures + i =
            s.loadedTextures + (i + 1) := by
        rw [hs]
        show s.loadedTextures + 1 + i = s.loadedTextures + (i + 1)
        omega
      rw [← hidx, h2]
      rfl

/-- C1: for every sequence of successful texture registrations (each image
decoding with 3 or 4 channels, tags pairwise distinct, within the 16-slot
array) starting from the constructor-fresh state, looking up the tag given
at the i-th registration returns slot i, the slot assigned at registration
time. -/
theorem register_lookup_roundtrip (l : List RegInput) (i : Nat)
    (hch : ∀ r ∈ l, r.img.colorChannels = 3 ∨ r.img.colorChannels = 4)
    (hnodup : (l.map RegInput.tag).Nodup)
    (_hcap : l.length ≤ TEXTURE_SLOT_CAPACITY)
    (hi : i < l.length) :
    FindTextureSlot (registerAll (initialState true) l)
      ((l.get ⟨i, hi⟩).tag) = (i : Int) := by
  have hcount :
      (registerAll (initialState true) l).loadedTextures = l.length := by
    simpa [initialState] using registerAll_count l (initialState true) hch
  have hentry : ∀ j, (hj : j < l.length) →
      (registerAll (initialState true) l).textureIDs j =
        { tag := (l.get ⟨j, hj⟩).tag, ID := (l.get ⟨j, hj⟩).newID } := by
    intro j hj
    simpa [initialState] using registerAll_entry l (initialState true) hch j hj
  have htag : ∀ j, (hj : j < l.length) → j ≠ i →
      (l.get ⟨j, hj⟩).tag ≠ (l.get ⟨i, hi⟩).tag := by
    intro j hj hne hcontra
    have hmap : (l.map RegInput.tag).get ⟨j, by simpa⟩ =
        (l.map RegInput.tag).get ⟨i, by simpa⟩ := by
      simpa [List.getElem_map] using hcontra
    have := hnodup.get_inj_iff.mp hmap
    exact hne (by simpa using this)
  refine ((find_texture_linear_scan (registerAll (initialState true) l)
      ((l.get ⟨i, hi⟩).tag)).2 i (by omega) ?_ ?_).1
  · rw [hentry i hi]
  · intro j hj
    have hjl : j < l.length := by omega
    rw [hentry j hjl]
    exact htag j hjl (Nat.ne_of_lt (by omega))

/-- Witness for C1, the round-trip of the specification: registering "A"
then "B" (both RGB images, from the fresh state) and looking up "A" still
returns slot 0, undisturbed by the registration of "B". -/
theorem register_lookup_roundtrip_witness :
    FindTextureSlot (registerAll (initialState true)
      [{ img := rgbImage, newID := 1, tag := "A" },
       { img := rgbImage, newID := 2, tag := "B" }]) "A" = 0 :=
  register_lookup_roundtrip
    [{ img := rgbImage, newID := 1, tag := "A" },
     { img := rgbImage, newID := 2, tag := "B" }] 0
    (by decide) (by decide) (by decide) (by decide)

/-- The backend commands one RenderScene statement emits never depend on
the OpenGL texturing state it starts from: only the scene-manager state
(registry, shader presence) and the statement's constants matter. -/
lemma runStep_trace_eq (t : GlmTrig) (s : SceneState) (g₁ g₂ : GLState)
    (step : Step) :
    (runStep t s g₁ step).2 = (runStep t s g₂ step).2 := by
  cases step
  case setShaderTexture tag =>
    simp only [runStep, SetShaderTexture]
    by_cases h : s.hasShader
    · simp only [h, if_true]
      by_cases h2 : 0 ≤ FindTextureSlot s tag <;> simp [h2]
    · simp [h]
  all_goals rfl

/-- The trace of a whole statement sequence is likewise independent of
the starting OpenGL texturing state. -/
lemma runScript_trace_eq (t : GlmTrig) (s : SceneState) :
    ∀ (script : List Step) (g₁ g₂ : GLState),
      (runScript t s g₁ script).2 = (runScript t s g₂ script).2 := by
  intro script
  induction script with
  | nil => intro g₁ g₂; rfl
  | cons step rest ih =>
    intro g₁ g₂
    simp only [runScript]
    rw [runStep_trace_eq t s g₁ g₂ step,
      ih (runStep t s g₁ step).1 (runStep t s g₂ step).1]

/-- C8: for every fixed registry state, running the fixed scene script a
second time - from whatever OpenGL texturing state the first run left
behind - issues exactly the command sequence of the first run, for the
Module 7 RenderScene and for the Module 3 RenderScene: no hidden
frame-dependent state influences the emitted draw commands. -/
theorem renderScene_deterministic (t : GlmTrig) (s : SceneState) (g : GLState) :
    (RenderScene7 t s (RenderScene7 t s g).1).2 = (RenderScene7 t s g).2 ∧
    (RenderScene3 t s (RenderScene3 t s g).1).2 = (RenderScene3 t s g).2 :=
  ⟨runScript_trace_eq t s script7 (RenderScene7 t s g).1 g,
   runScript_trace_eq t s script3 (RenderScene3 t s g).1 g⟩

/-- glm::rotate about the axis (1,0,0) is the classic X-axis rotation
matrix the specification words the composition with. -/
lemma glmRotate_xAxis (t : GlmTrig) (angle : ℚ) :
    glmRotate t angle { x := 1, y := 0, z := 0 } = specRotateX t angle := by
  unfold glmRotate specRotateX
  ext i j
  fin_cases i <;> fin_cases j <;> simp [Matrix.vecHead, Matrix.vecTail]

/-- glm::rotate about the axis (0,1,0) is the classic Y-axis rotation
matrix. -/
lemma glmRotate_yAxis (t : GlmTrig) (angle : ℚ) :
    glmRotate t angle { x := 0, y := 1, z := 0 } = specRotateY t angle := by
  unfold glmRotate specRotateY
  ext i j
  fin_cases i <;> fin_cases j <;> simp [Matrix.vecHead, Matrix.vecTail]

/-- glm::rotate about the axis (0,0,1) is the classic Z-axis rotation
matrix. -/
lemma glmRotate_zAxis (t : GlmTrig) (angle : ℚ) :
    glmRotate t angle { x := 0, y := 0, z := 1 } = specRotateZ t angle := by
  unfold glmRotate specRotateZ
  ext i j
  fin_cases i <;> fin_cases j <;> simp [Matrix.vecHead, Matrix.vecTail]

/-- C5: whenever a shader manager is present, the model matrix
SetTransformations uploads is exactly
Translate(position) * RotateX(radians(x)) * RotateY(radians(y)) *
RotateZ(radians(z)) * Scale(scale): scale applied first, then the X, Y, Z
axis rotations in that order, then translation, with each angle run
through the degree-to-radian conversion before use - for every scale,
angle triple and position, and every interpretation of the trig
functions. -/
theorem setTransformations_model_matrix (t : GlmTrig) (s : SceneState)
    (scaleXYZ : Vec3) (xDeg yDeg zDeg : ℚ) (positionXYZ : Vec3)
    (h : s.hasShader = true) :
    SetTransformations t s scaleXYZ xDeg yDeg zDeg positionXYZ =
      [Cmd.setMat4Value "model"
        (specModelMatrix t scaleXYZ xDeg yDeg zDeg positionXYZ)] := by
  simp only [SetTransformations, h, if_true, specModelMatrix,
    glmRotate_xAxis, glmRotate_yAxis, glmRotate_zAxis]

/-- Witness for C5 at concrete arguments: scale (1,1,1), no rotation,
position (2,3,4), on a state holding a shader manager. -/
theorem setTransformations_model_matrix_witness :
    SetTransformations idTrig witnessStateAB
        { x := 1, y := 1, z := 1 } 0 0 0 { x := 2, y := 3, z := 4 } =
      [Cmd.setMat4Value "model"
        (specModelMatrix idTrig { x := 1, y := 1, z := 1 } 0 0 0
          { x := 2, y := 3, z := 4 })] :=
  setTransformations_model_matrix idTrig witnessStateAB
    { x := 1, y := 1, z := 1 } 0 0 0 { x := 2, y := 3, z := 4 } rfl

/-- The teardown loop emits one genTextures call per visited index and
nothing else. -/
lemma destroyFrom_trace (freshIDs : Nat → Int) :
    ∀ (idxs : List Nat) (s : SceneState),
      (destroyFrom freshIDs idxs s).2 =
        List.replicate idxs.length (Cmd.genTextures 1) := by
  intro idxs
  induction idxs with
  | nil => intro s; rfl
  | cons i rest ih =>
    intro s
    simp [destroyFrom, ih, List.replicate_succ]

/-- C4: on teardown, DestroyGLTextures issues the texture-generation call
glGenTextures - not a deletion - once for each of the m_loadedTextures
registered slots, and no deletion call is ever part of its trace. -/
theorem destroyGLTextures_generates_instead_of_deleting
    (freshIDs : Nat → Int) (s : SceneState) :
    (DestroyGLTextures freshIDs s).2 =
      List.replicate s.loadedTextures (Cmd.genTextures 1) ∧
    ∀ c ∈ (DestroyGLTextures freshIDs s).2, ∀ n, c ≠ Cmd.deleteTextures n := by
  have h := destroyFrom_trace freshIDs (List.range s.loadedTextures) s
  rw [List.length_range] at h
  refine ⟨by rw [DestroyGLTextures, h], ?_⟩
  intro c hc n
  rw [DestroyGLTextures, h] at hc
  rw [List.eq_of_mem_replicate hc]
  intro hcon
  cases hcon

/-- A false return from CreateGLTexture can only come from a failed
decode or an unhandled channel count. -/
lemma createGLTexture_fail_inv (filename tag : String)
    (decoded : Option Image) (newID : Int) (s : SceneState) :
    (CreateGLTexture filename tag decoded newID s).ok = false →
      decoded = none ∨ ∃ img, decoded = some img ∧
        img.colorChannels ≠ 3 ∧ img.colorChannels ≠ 4 := by
  intro h
  match decoded with
  | none => exact Or.inl rfl
  | some img =>
    by_cases hg : img.colorChannels = 3 ∨ img.colorChannels = 4
    · rw [(createGLTexture_success filename tag img newID s hg).1] at h
      cases h
    · push_neg at hg
      exact Or.inr ⟨img, rfl, hg.1, hg.2⟩

/-- C6: CreateGLTexture returns failure exactly when the image file cannot
be decoded or the decoded channel count is neither 3 nor 4; equivalently,
every decodable 3- or 4-channel image registers successfully (the code
imposes no further condition - in particular no capacity condition). -/
theorem createGLTexture_failure_iff (filename tag : String)
    (decoded : Option Image) (newID : Int) (s : SceneState) :
    (CreateGLTexture filename tag decoded newID s).ok = false ↔
      (decoded = none ∨ ∃ img, decoded = some img ∧
        img.colorChannels ≠ 3 ∧ img.colorChannels ≠ 4) :=
  ⟨createGLTexture_fail_inv filename tag decoded newID s,
   fun h => (createGLTexture_failure filename tag decoded newID s h).1⟩

/-- C7: below capacity, a failed registration - decode failure or
unsupported channel count - leaves the member state (registry entries,
their tags, handles and slots, and the loaded-texture count) exactly as it
was. -/
theorem createGLTexture_failure_preserves_state (filename tag : String)
    (decoded : Option Image) (newID : Int) (s : SceneState)
    (_hcap : s.loadedTextures < TEXTURE_SLOT_CAPACITY)
    (hfail : (CreateGLTexture filename tag decoded newID s).ok = false) :
    (CreateGLTexture filename tag decoded newID s).state = s :=
  (createGLTexture_failure filename tag decoded newID s
    (createGLTexture_fail_inv filename tag decoded newID s hfail)).2

/-- Witness for C7: a two-channel image rejected on a two-entry registry
leaves that registry state untouched. -/
theorem createGLTexture_failure_preserves_state_witness :
    witnessStateAB.loadedTextures < TEXTURE_SLOT_CAPACITY ∧
    (CreateGLTexture "textures/gray.png" "gray" (some grayAlphaImage) 5
      witnessStateAB).state = witnessStateAB :=
  ⟨by decide,
   createGLTexture_failure_preserves_state "textures/gray.png" "gray"
     (some grayAlphaImage) 5 witnessStateAB (by decide) (by decide)⟩

/-- C10: with a shader manager present, SetShaderTexture on a tag that is
not in the texture registry still sets the bUseTexture uniform to true but
issues no texture activation, no binding and no sampler-uniform upload,
and leaves the OpenGL texturing state - in particular whatever texture was
previously bound - unchanged; only for a registered tag does it activate
unit GL_TEXTURE0 + slot, bind the looked-up handle there, and upload the
slot to the sampler uniform. -/
theorem setShaderTexture_unregistered_tag (s : SceneState) (g : GLState)
    (tag : String) (hsh : s.hasShader = true) :
    (FindTextureSlot s tag = -1 →
      SetShaderTexture s g tag = (g, [Cmd.setIntValue "bUseTexture" true]))
    ∧ (0 ≤ FindTextureSlot s tag →
      SetShaderTexture s g tag =
        ({ activeTexture := GL_TEXTURE0 + FindTextureSlot s tag,
           boundTexture2D := Function.update g.boundTexture2D
             (GL_TEXTURE0 + FindTextureSlot s tag)
             ((s.textureIDs (FindTextureSlot s tag).toNat).ID) },
         [Cmd.setIntValue "bUseTexture" true,
          Cmd.activeTexture (GL_TEXTURE0 + FindTextureSlot s tag),
          Cmd.bindTexture ((s.textureIDs (FindTextureSlot s tag).toNat).ID),
          Cmd.setSampler2DValue "objectTexture" (FindTextureSlot s tag)])) := by
  constructor
  · intro hmiss
    rw [SetShaderTexture, if_pos hsh, hmiss]
    rfl
  · intro hpos
    rw [SetShaderTexture, if_pos hsh, if_pos hpos]

/-- Witness for C10: on the concrete two-entry registry, the unregistered
tag "C" produces only the bUseTexture upload and no state change, while
the registered tag "A" binds its slot. -/
theorem setShaderTexture_unregistered_tag_witness :
    SetShaderTexture witnessStateAB witnessGLState "C" =
      (witnessGLState, [Cmd.setIntValue "bUseTexture" true]) ∧
    SetShaderTexture witnessStateAB witnessGLState "A" =
      ({ activeTexture := GL_TEXTURE0 + FindTextureSlot witnessStateAB "A",
         boundTexture2D := Function.update witnessGLState.boundTexture2D
           (GL_TEXTURE0 + FindTextureSlot witnessStateAB "A")
           ((witnessStateAB.textureIDs
             (FindTextureSlot witnessStateAB "A").toNat).ID) },
       [Cmd.setIntValue "bUseTexture" true,
        Cmd.activeTexture (GL_TEXTURE0 + FindTextureSlot witnessStateAB "A"),
        Cmd.bindTexture ((witnessStateAB.textureIDs
          (FindTextureSlot witnessStateAB "A").toNat).ID),
        Cmd.setSampler2DValue "objectTexture"
          (FindTextureSlot witnessStateAB "A")]) :=
  ⟨(setShaderTexture_unregistered_tag witnessStateAB witnessGLState "C"
      rfl).1 (by decide),
   (setShaderTexture_unregistered_tag witnessStateAB witnessGLState "A"
      rfl).2 (by decide)⟩

/-- C2 fails on the code (the claim states the intended guard; the spec
itself flags the unguarded write): after sixteen successful registrations
fill the declared array, a seventeenth registration of a valid RGB image
does not fail cleanly - it returns true, increments m_loadedTextures to
17, and records the entry at index 16, one past the last slot of the
16-entry array (an out-of-bounds write in the C++); slot 0 is still
reachable in the model only because the model gives the array unbounded
backing storage. -/
theorem seventeenth_registration_overflows :
    fullState.loadedTextures = TEXTURE_SLOT_CAPACITY ∧
    (CreateGLTexture "textures/extra.jpg" "overflow" (some rgbImage) 999
      fullState).ok = true ∧
    (CreateGLTexture "textures/extra.jpg" "overflow" (some rgbImage) 999
      fullState).state.loadedTextures = TEXTURE_SLOT_CAPACITY + 1 ∧
    (CreateGLTexture "textures/extra.jpg" "overflow" (some rgbImage) 999
      fullState).state.textureIDs TEXTURE_SLOT_CAPACITY =
        { tag := "overflow", ID := 999 } := by
  refine ⟨?_, ?_, ?_, ?_⟩ <;> decide

/-- C3 fails on the code: on a nonempty material list in which no entry
bears the looked-up tag, FindMaterial still returns true (its final
return statement ignores the loop's found flag), leaving the out-parameter
untouched - where the claim requires a false return exactly in this
no-match case. -/
theorem findMaterial_true_without_match :
    (∀ m ∈ woodOnlyState.objectMaterials, m.tag ≠ "metal") ∧
    (FindMaterial woodOnlyState "metal" callerMaterial).1 = true ∧
    (FindMaterial woodOnlyState "metal" callerMaterial).2 = callerMaterial := by
  refine ⟨?_, ?_, ?_⟩ <;> decide

/-- Witness for C4 at a concrete two-entry registry: the teardown trace is
two genTextures calls, the genTextures command is in the trace, and it is
not a deleteTextures command. -/
theorem destroyGLTextures_generates_witness :
    (DestroyGLTextures (fun i => (i : Int) + 50) witnessStateAB).2 =
      List.replicate 2 (Cmd.genTextures 1) ∧
    Cmd.genTextures 1 ≠ Cmd.deleteTextures 1 :=
  ⟨(destroyGLTextures_generates_instead_of_deleting
      (fun i => (i : Int) + 50) witnessStateAB).1,
   (destroyGLTextures_generates_instead_of_deleting
      (fun i => (i : Int) + 50) witnessStateAB).2
     (Cmd.genTextures 1) (by decide) 1⟩

/-- Witness for C6 at concrete inputs: a failed decode is reported as
false, and an RGB decode on the fresh state is reported as true. -/
theorem createGLTexture_failure_iff_witness :
    (CreateGLTexture "missing.jpg" "x" none 7 (initialState true)).ok = false ∧
    ¬ (CreateGLTexture "textures/oakwood.jpg" "oakWood" (some rgbImage) 7
        (initialState true)).ok = false :=
  ⟨(createGLTexture_failure_iff "missing.jpg" "x" none 7
      (initialState true)).mpr (Or.inl rfl),
   fun h => by
    rcases (createGLTexture_failure_iff "textures/oakwood.jpg" "oakWood"
        (some rgbImage) 7 (initialState true)).mp h with h | ⟨img, him, h3, _⟩
    · cases h
    · cases him; exact h3 rfl⟩

/-- Witness for C8 at a concrete registry and start state: replaying the
Module 7 scene script a second time from the state the first run left
behind emits the first run's command list again. -/
theorem renderScene_deterministic_witness :
    (RenderScene7 idTrig witnessStateAB
      (RenderScene7 idTrig witnessStateAB witnessGLState).1).2 =
      (RenderScene7 idTrig witnessStateAB witnessGLState).2 :=
  (renderScene_deterministic idTrig witnessStateAB witnessGLState).1

end SceneMgr
